import Mathlib

set_option linter.unusedVariables false

/-!
Verification development for the gh-mutual-follow repository.

The development shallowly embeds the parts of the program that the
specification talks about:

* the asymmetric-set calculator `GetMutualFollowsData`
  (internal/github/client.go and internal/cli/cli.go — both copies are
  textually identical);
* the data-load orchestrator `loadDataCmd` (internal/tui/commands.go),
  parameterised by the external GitHub client, which is modelled as a
  record of oracles;
* the authenticated-user lookup `GetUser` (internal/github/client.go),
  with an executable model of the Go regular expression
  `Logged in to github.com account (\S+)`;
* the Bubble Tea reducer `tuiModel.Update` (internal/tui/model.go),
  with messages as a closed sum type and commands as symbolic values.

Go `map[string]bool` values are used by the source only for membership
tests and for key iteration when collecting deduplicated results; they
are modelled as lists of keys in insertion order (`List.foldl
insertUnique []`).  Go map iteration order is unspecified, so every
property proved about the collected lists is at the level of membership
/ `toFinset`, never of the concrete order.
-/

/-! ## Asymmetric-set calculator (GetMutualFollowsData) -/

/-- Adding a key to a Go `map[string]bool`, modelled as its key list in
insertion order: a repeated insertion is a no-op. -/
def insertUnique (acc : List String) (u : String) : List String :=
  if u ∈ acc then acc else acc ++ [u]

/-- Embedding of `GetMutualFollowsData(authenticatedUser, following, followers)`:
builds membership maps for both inputs, collects the elements of
`following` absent from the followers map (deduplicated) and the
elements of `followers` absent from the following map (deduplicated),
and returns the two collected lists.  The `authenticatedUser` argument
is, as in the source, never used. -/
def GetMutualFollowsData (authenticatedUser : String)
    (following followers : List String) : List String × List String :=
  let followingMap := following.foldl insertUnique []
  let followersMap := followers.foldl insertUnique []
  let uniqueOnlyFollowing :=
    (following.filter (fun u => decide (u ∉ followersMap))).foldl insertUnique []
  let uniqueOnlyFollowers :=
    (followers.filter (fun u => decide (u ∉ followingMap))).foldl insertUnique []
  (uniqueOnlyFollowing, uniqueOnlyFollowers)

theorem mem_foldl_insertUnique (l : List String) (acc : List String) (x : String) :
    x ∈ l.foldl insertUnique acc ↔ x ∈ acc ∨ x ∈ l := by
  induction l generalizing acc with
  | nil => simp
  | cons a t ih =>
      simp only [List.foldl_cons, ih, insertUnique]
      by_cases h : a ∈ acc <;> by_cases hx : x = a <;>
        simp [h, hx, List.mem_append]

theorem nodup_foldl_insertUnique (l : List String) (acc : List String)
    (h : acc.Nodup) : (l.foldl insertUnique acc).Nodup := by
  induction l generalizing acc with
  | nil => simpa using h
  | cons a t ih =>
      simp only [List.foldl_cons]
      apply ih
      unfold insertUnique
      by_cases ha : a ∈ acc
      · simpa [ha] using h
      · simp [ha, List.nodup_append, h, List.Disjoint]
        intro b hb hba
        exact ha (hba ▸ hb)

theorem mem_getMutualFollowsData_fst (au x : String)
    (following followers : List String) :
    x ∈ (GetMutualFollowsData au following followers).1 ↔
      x ∈ following ∧ x ∉ followers := by
  unfold GetMutualFollowsData
  simp only [mem_foldl_insertUnique, List.not_mem_nil, false_or,
    List.mem_filter, decide_eq_true_eq]

theorem mem_getMutualFollowsData_snd (au x : String)
    (following followers : List String) :
    x ∈ (GetMutualFollowsData au following followers).2 ↔
      x ∈ followers ∧ x ∉ following := by
  unfold GetMutualFollowsData
  simp only [mem_foldl_insertUnique, List.not_mem_nil, false_or,
    List.mem_filter, decide_eq_true_eq]

theorem nodup_getMutualFollowsData_fst (au : String)
    (following followers : List String) :
    (GetMutualFollowsData au following followers).1.Nodup := by
  unfold GetMutualFollowsData
  exact nodup_foldl_insertUnique _ _ List.nodup_nil

theorem nodup_getMutualFollowsData_snd (au : String)
    (following followers : List String) :
    (GetMutualFollowsData au following followers).2.Nodup := by
  unfold GetMutualFollowsData
  exact nodup_foldl_insertUnique _ _ List.nodup_nil

/-! ## String comparison and sorting (loadDataCmd's sort.Slice calls)

Go compares strings byte-lexicographically; on UTF-8 encoded strings
this coincides with lexicographic comparison of the code-point
sequences, which is what `lexLe` computes. -/

/-- Lexicographic less-or-equal on code-point sequences, the order in
which `loadDataCmd` sorts both result lists (the Go comparator is
`items[i].FilterValue() < items[j].FilterValue()`). -/
def lexLe : List Char → List Char → Bool
  | [], _ => true
  | _ :: _, [] => false
  | a :: as, b :: bs =>
    if a.toNat < b.toNat then true
    else if b.toNat < a.toNat then false
    else lexLe as bs

/-- Go string less-or-equal, as a relation on `String`. -/
def strLe (a b : String) : Prop := lexLe a.data b.data = true

instance : DecidableRel strLe := fun a b => by unfold strLe; infer_instance

theorem lexLe_total : ∀ as bs : List Char, lexLe as bs = true ∨ lexLe bs as = true
  | [], _ => Or.inl rfl
  | _ :: _, [] => Or.inr rfl
  | a :: as, b :: bs => by
      rcases Nat.lt_trichotomy a.toNat b.toNat with h | h | h
      · left; simp [lexLe, h]
      · have h1 : ¬ a.toNat < b.toNat := by omega
        have h2 : ¬ b.toNat < a.toNat := by omega
        simpa [lexLe, h1, h2] using lexLe_total as bs
      · right; simp [lexLe, h]

theorem lexLe_trans : ∀ as bs cs : List Char,
    lexLe as bs = true → lexLe bs cs = true → lexLe as cs = true
  | [], _, _, _, _ => rfl
  | _ :: _, [], _, h, _ => by simp [lexLe] at h
  | _ :: _, _ :: _, [], _, h => by simp [lexLe] at h
  | a :: as, b :: bs, c :: cs, h1, h2 => by
      simp only [lexLe] at h1 h2 ⊢
      rcases Nat.lt_trichotomy a.toNat b.toNat with hab | hab | hab
      · rcases Nat.lt_trichotomy b.toNat c.toNat with hbc | hbc | hbc
        · have hac : a.toNat < c.toNat := by omega
          simp [hac]
        · have hac : a.toNat < c.toNat := by omega
          simp [hac]
        · have hbc1 : ¬ b.toNat < c.toNat := by omega
          simp [hbc1, hbc] at h2
      · have hab1 : ¬ a.toNat < b.toNat := by omega
        have hab2 : ¬ b.toNat < a.toNat := by omega
        simp [hab1, hab2] at h1
        rcases Nat.lt_trichotomy b.toNat c.toNat with hbc | hbc | hbc
        · have hac : a.toNat < c.toNat := by omega
          simp [hac]
        · have hbc1 : ¬ b.toNat < c.toNat := by omega
          have hbc2 : ¬ c.toNat < b.toNat := by omega
          simp [hbc1, hbc2] at h2
          have hac1 : ¬ a.toNat < c.toNat := by omega
          have hac2 : ¬ c.toNat < a.toNat := by omega
          simp [hac1, hac2]
          exact lexLe_trans as bs cs h1 h2
        · have hbc1 : ¬ b.toNat < c.toNat := by omega
          simp [hbc1, hbc] at h2
      · have hab1 : ¬ a.toNat < b.toNat := by omega
        simp [hab1, hab] at h1

instance : IsTrans String strLe := ⟨fun a b c => lexLe_trans a.data b.data c.data⟩

instance : IsTotal String strLe := ⟨fun a b => lexLe_total a.data b.data⟩

/-- Sorting of a result list by account name ascending.  The source
uses Go's `sort.Slice` with the strict comparator; on duplicate-free
input (which the calculator guarantees) the sorted permutation is
unique, so insertion sort computes the same list. -/
def sortItems (l : List String) : List String := List.insertionSort strLe l

theorem sortItems_sorted (l : List String) : List.Sorted strLe (sortItems l) :=
  List.sorted_insertionSort strLe l

theorem sortItems_perm (l : List String) : (sortItems l).Perm l :=
  List.perm_insertionSort strLe l

theorem mem_sortItems (x : String) (l : List String) : x ∈ sortItems l ↔ x ∈ l :=
  (sortItems_perm l).mem_iff

theorem sortItems_nodup (l : List String) (h : l.Nodup) : (sortItems l).Nodup :=
  ((sortItems_perm l).symm.nodup h : (sortItems l).Nodup)

/-! ## Messages and the external GitHub client -/

/-- Messages consumed by the reducer, one constructor per `tea.Msg`
kind the source dispatches on: `tea.WindowSizeMsg`, `dataLoadedMsg`
(whose struct carries an `err` field), `errorMsg`, `statusMsg`, and
`tea.KeyMsg` (identified, as in the source, by its `String()` form).
List items are account-name strings (`type item string`). -/
inductive Msg where
  | windowSize (width height : Int)
  | dataLoaded (username : String) (onlyFollowing onlyFollowers : List String)
      (err : Option String)
  | errorMsg (e : String)
  | statusMsg (s : String)
  | key (k : String)
deriving DecidableEq

/-- External collaborator `github.Client`: five operations, each of
which may fail.  Errors are carried as strings (the text of the Go
error).  A value of this type is one fixed behaviour of the remote
service, so a fetch evaluated twice returns the same answer. -/
structure Client where
  getUser : Except String String
  getFollowing : String → Except String (List String)
  getFollowers : String → Except String (List String)
  follow : String → Except String Unit
  unfollow : String → Except String Unit

/-- Embedding of `loadDataCmd` (internal/tui/commands.go): fetch the
current user, then the following list, then the followers list — any
failure short-circuits into an `errorMsg` wrapping the cause — then
compute the asymmetric sets and sort both results by name ascending.
The source's `[]item` / `[]list.Item` conversions around `sort.Slice`
only repackage the same strings and are dropped. -/
def loadDataCmd (client : Client) : Msg :=
  match client.getUser with
  | .error e => .errorMsg ("failed to get user: " ++ e)
  | .ok username =>
    match client.getFollowing username with
    | .error e => .errorMsg ("failed to get following: " ++ e)
    | .ok following =>
      match client.getFollowers username with
      | .error e => .errorMsg ("failed to get followers: " ++ e)
      | .ok followers =>
        let p := GetMutualFollowsData username following followers
        .dataLoaded username (sortItems p.1) (sortItems p.2) none

/-! ## GetUser and the Go regular expression

The source runs `gh auth status` and extracts the username with
`regexp.MustCompile` applied to the pattern
`Logged in to github.com account (\S+)` followed by
`FindStringSubmatch`, which yields the leftmost match; the capture
group is a maximal nonempty run of non-whitespace characters.  The
model below implements exactly that search on the output's character
list.  The `runCommand` collaborator is an oracle argument: either the
command's output or its error. -/

/-- Matching of one regex pattern character: `.` matches any character
except newline (RE2 default), every other pattern character only
itself.  The pattern contains no other metacharacters. -/
def reCharMatches (p c : Char) : Bool :=
  if p = '.' then c ≠ '\n' else p = c

/-- Whitespace per RE2's Perl class `\s`, namely `[\t\n\f\r ]`. -/
def isReSpace (c : Char) : Bool :=
  c = '\t' || c = '\n' || c = '\x0c' || c = '\r' || c = ' '

/-- Character list of the literal part of the pattern, up to the
capture group. -/
def authPattern : List Char := "Logged in to github.com account ".data

/-- Does the pattern match at the head of `l`? -/
def matchesAt : List Char → List Char → Bool
  | [], _ => true
  | _ :: _, [] => false
  | p :: ps, c :: cs => reCharMatches p c && matchesAt ps cs

/-- Attempt to match the whole regex at the head of `l`, returning the
capture (`\S+` is greedy, hence a maximal run, and needs at least one
character). -/
def captureAt (l : List Char) : Option (List Char) :=
  if matchesAt authPattern l then
    let cap := (l.drop authPattern.length).takeWhile (fun c => ! isReSpace c)
    if cap.isEmpty then none else some cap
  else none

/-- Leftmost match of the regex over the output, as computed by
`FindStringSubmatch`: the first position whose match attempt succeeds
wins. -/
def findCapture : List Char → Option (List Char)
  | [] => none
  | c :: rest =>
    match captureAt (c :: rest) with
    | some cap => some cap
    | none => findCapture rest

/-- Embedding of `GetUser` (internal/github/client.go): wrap a command
failure, search the output for the pattern, fail when there is no
match, and otherwise return the captured account name. -/
def GetUser (runResult : Except String String) : Except String String :=
  match runResult with
  | .error e => .error ("failed to run 'gh auth status': " ++ e)
  | .ok output =>
    match findCapture output.data with
    | none => .error "could not find authenticated user in 'gh auth status' output"
    | some cap => .ok (String.mk cap)

theorem captureAt_ne_nil (l cap : List Char) (h : captureAt l = some cap) :
    cap ≠ [] := by
  unfold captureAt at h
  by_cases hm : matchesAt authPattern l
  · simp only [hm, if_true] at h
    by_cases he : ((l.drop authPattern.length).takeWhile (fun c => ! isReSpace c)).isEmpty
    · simp [he] at h
    · simp only [he, if_false] at h
      cases h
      simpa [List.isEmpty_iff] using he
  · simp [hm] at h

theorem findCapture_ne_nil (l cap : List Char) (h : findCapture l = some cap) :
    cap ≠ [] := by
  induction l with
  | nil => simp [findCapture] at h
  | cons c rest ih =>
      unfold findCapture at h
      cases hc : captureAt (c :: rest) with
      | some cap2 => rw [hc] at h; cases h; exact captureAt_ne_nil _ _ hc
      | none => rw [hc] at h; exact ih h

/-! ## The TUI reducer (tuiModel.Update, internal/tui/model.go)

The Bubble Tea list widget (`bubbles/list.Model`) is an external
collaborator; of its state the reducer reads and writes the item list,
the cursor index and the dimensions, so the embedding keeps exactly
those.  Key messages the reducer does not handle itself are forwarded
to the widget's own update function, which is a parameter of `Update`
(the library's behaviour is outside the embedded program). -/

/-- Pane identifiers, `followingPane = iota` and `followersPane`. -/
def followingPane : Nat := 0

/-- Second value of the pane enumeration. -/
def followersPane : Nat := 1

/-- State of one `list.Model` widget as used by the reducer. -/
structure ListState where
  items : List String
  index : Nat
  width : Int
  height : Int
deriving DecidableEq

/-- SelectedItem of the bubbles widget: the item under the cursor, or
nothing when the list is empty / the cursor is out of range. -/
def ListState.selectedItem (l : ListState) : Option String :=
  l.items.get? l.index

/-- Commands returned by the reducer, kept symbolic: the reducer's
contract is which asynchronous work it schedules, not the work's
execution.  `single` and `bulkAction` record the action name
("unfollow" for the Following pane, "follow" for the Followers pane)
and the target(s); `clearStatus` is the 3-second `tea.Tick` of
`clearStatusMsg`; `listCmd` is whatever command the list widget
returned. -/
inductive Cmd where
  | quit
  | loadData
  | clearStatus
  | single (action : String) (target : String)
  | bulkAction (action : String) (targets : List String)
  | batch (cs : List Cmd)
  | listCmd

/-- The model of internal/tui/model.go, minus the two fields with no
behavioural content for the reducer (the style table, and the client
handle which only selects which external service the scheduled
commands will talk to). -/
structure TuiModel where
  username : String
  onlyFollowing : List String
  onlyFollowers : List String
  activePane : Nat
  followingList : ListState
  followersList : ListState
  loading : Bool
  err : Option String
  quitting : Bool
  statusMessage : String
  isBulkActionInProgress : Bool
  width : Int
  height : Int
deriving DecidableEq

/-- Empty list widget as built by `list.New([]list.Item{}, d, 0, 0)`. -/
def emptyListState : ListState :=
  { items := [], index := 0, width := 0, height := 0 }

/-- Initial model of `NewModel`: Following pane active, loading set,
every other field at its zero value. -/
def initialTuiModel : TuiModel :=
  { username := ""
    onlyFollowing := []
    onlyFollowers := []
    activePane := followingPane
    followingList := emptyListState
    followersList := emptyListState
    loading := true
    err := none
    quitting := false
    statusMessage := ""
    isBulkActionInProgress := false
    width := 0
    height := 0 }

/-- Embedding of `tuiModel.Update`.  `listUpdate` is the external
`list.Model.Update` of the bubbles library, applied to whichever pane
is active when a key is not handled by the reducer itself.  Each match
arm mirrors the corresponding `case` of the Go type switch; `none` as
the returned command is Go's nil command (`tea.Batch()` of no commands
is also nil). -/
def Update (listUpdate : ListState → String → ListState × Option Cmd)
    (m : TuiModel) (msg : Msg) : TuiModel × Option Cmd :=
  match msg with
  | .windowSize w h =>
      let listHeight : Int := 15
      let listWidth : Int := w / 2
      ({ m with
          width := w
          height := h
          followingList := { m.followingList with height := listHeight, width := listWidth }
          followersList := { m.followersList with height := listHeight, width := listWidth } },
        none)
  | .dataLoaded username ofg ofr err =>
      let m1 := { m with loading := false }
      match err with
      | some e => ({ m1 with err := some e }, none)
      | none =>
          ({ m1 with
              username := username
              onlyFollowing := ofg
              onlyFollowers := ofr
              followingList := { m1.followingList with items := ofg }
              followersList := { m1.followersList with items := ofr } },
            none)
  | .errorMsg e => ({ m with loading := false, err := some e }, none)
  | .statusMsg s =>
      let m1 := { m with isBulkActionInProgress := false, statusMessage := s }
      if m1.statusMessage ≠ "" then (m1, some .clearStatus) else (m1, none)
  | .key k =>
      if m.isBulkActionInProgress then
        if k = "q" ∨ k = "ctrl+c" then ({ m with quitting := true }, some .quit)
        else (m, none)
      else if m.err.isSome then
        if k = "q" ∨ k = "ctrl+c" then ({ m with quitting := true }, some .quit)
        else (m, none)
      else if k = "q" ∨ k = "ctrl+c" then ({ m with quitting := true }, some .quit)
      else if k = "tab" ∨ k = "shift+tab" then
        if m.activePane = followingPane then ({ m with activePane := followersPane }, none)
        else ({ m with activePane := followingPane }, none)
      else if k = "r" then
        ({ m with loading := true, err := none }, some .loadData)
      else if k = "enter" then
        if m.activePane = followingPane then
          match m.followingList.selectedItem with
          | some sel =>
              ({ m with loading := true },
                some (.batch [.single "unfollow" sel, .loadData]))
          | none => (m, none)
        else
          match m.followersList.selectedItem with
          | some sel =>
              ({ m with loading := true },
                some (.batch [.single "follow" sel, .loadData]))
          | none => (m, none)
      else if k = "a" then
        let pick : List String × String :=
          if m.activePane = followingPane then (m.followingList.items, "unfollow")
          else (m.followersList.items, "follow")
        if pick.1.isEmpty then (m, none)
        else
          ({ m with
              isBulkActionInProgress := true
              statusMessage := "Bulk " ++ pick.2 ++ "ing all users..." },
            some (.bulkAction pick.2 pick.1))
      else
        if m.activePane = followingPane then
          let r := listUpdate m.followingList k
          ({ m with followingList := r.1 }, r.2)
        else
          let r := listUpdate m.followersList k
          ({ m with followersList := r.1 }, r.2)

/-- Stand-in for the external list widget's update used by concrete
evaluations: it leaves the widget unchanged and schedules nothing. -/
def inertListUpdate : ListState → String → ListState × Option Cmd :=
  fun l _ => (l, none)

/-! ## Claim theorems -/

/-- Claim C1: for all finite input lists, `GetMutualFollowsData`
returns `(onlyFollowing, onlyFollowers)` with, as sets,
`onlyFollowing ∩ followers = ∅`, `onlyFollowers ∩ following = ∅`,
`onlyFollowing ∪ (following ∩ followers) = set following`,
`onlyFollowers ∪ (following ∩ followers) = set followers`,
equivalently the two set differences; input duplicates are collapsed
(both outputs are duplicate-free) and there is no failure mode (the
function is total by construction). -/
theorem getMutualFollowsData_set_spec (au : String)
    (following followers : List String) :
    (GetMutualFollowsData au following followers).1.toFinset ∩ followers.toFinset = ∅ ∧
    (GetMutualFollowsData au following followers).2.toFinset ∩ following.toFinset = ∅ ∧
    (GetMutualFollowsData au following followers).1.toFinset ∪
        (following.toFinset ∩ followers.toFinset) = following.toFinset ∧
    (GetMutualFollowsData au following followers).2.toFinset ∪
        (following.toFinset ∩ followers.toFinset) = followers.toFinset ∧
    (GetMutualFollowsData au following followers).1.toFinset =
        following.toFinset \ followers.toFinset ∧
    (GetMutualFollowsData au following followers).2.toFinset =
        followers.toFinset \ following.toFinset ∧
    (GetMutualFollowsData au following followers).1.Nodup ∧
    (GetMutualFollowsData au following followers).2.Nodup := by
  refine ⟨?_, ?_, ?_, ?_, ?_, ?_,
    nodup_getMutualFollowsData_fst au following followers,
    nodup_getMutualFollowsData_snd au following followers⟩ <;>
    · ext x
      simp only [Finset.mem_inter, Finset.mem_union, Finset.mem_sdiff,
        Finset.not_mem_empty, List.mem_toFinset,
        mem_getMutualFollowsData_fst, mem_getMutualFollowsData_snd]
      try tauto

/-- Claim C7: the calculator's outputs depend only on the input lists
viewed as sets — equal input sets give set-equal outputs, whatever the
`authenticatedUser` argument, the input order, or the duplicate
multiplicities. -/
theorem getMutualFollowsData_set_extensional
    (au1 au2 : String) (fl1 fl2 fr1 fr2 : List String)
    (hfl : fl1.toFinset = fl2.toFinset) (hfr : fr1.toFinset = fr2.toFinset) :
    (GetMutualFollowsData au1 fl1 fr1).1.toFinset =
        (GetMutualFollowsData au2 fl2 fr2).1.toFinset ∧
    (GetMutualFollowsData au1 fl1 fr1).2.toFinset =
        (GetMutualFollowsData au2 fl2 fr2).2.toFinset := by
  have hfl2 : ∀ x, x ∈ fl1 ↔ x ∈ fl2 := fun x => by
    rw [← List.mem_toFinset, hfl, List.mem_toFinset]
  have hfr2 : ∀ x, x ∈ fr1 ↔ x ∈ fr2 := fun x => by
    rw [← List.mem_toFinset, hfr, List.mem_toFinset]
  constructor <;>
    · ext x
      simp only [List.mem_toFinset, mem_getMutualFollowsData_fst,
        mem_getMutualFollowsData_snd, hfl2 x, hfr2 x]

/-- Witness for C7 at concrete inputs that differ in user, order and
multiplicity but agree as sets. -/
theorem getMutualFollowsData_set_extensional_witness :
    (["x", "y", "x"] : List String).toFinset = (["y", "x"] : List String).toFinset ∧
    (["y"] : List String).toFinset = (["y", "y"] : List String).toFinset ∧
    ((GetMutualFollowsData "a" ["x", "y", "x"] ["y"]).1.toFinset =
        (GetMutualFollowsData "b" ["y", "x"] ["y", "y"]).1.toFinset ∧
      (GetMutualFollowsData "a" ["x", "y", "x"] ["y"]).2.toFinset =
        (GetMutualFollowsData "b" ["y", "x"] ["y", "y"]).2.toFinset) :=
  ⟨by decide, by decide,
    getMutualFollowsData_set_extensional "a" "b" _ _ _ _ (by decide) (by decide)⟩

/-- Claim C6: the data-load orchestrator reads user, following and
followers in that order, short-circuits the remaining reads into a
`LoadFailed` signal wrapping the first failing read's cause (the
result is fully determined by the reads made so far), and on success
emits `DataLoaded` with the calculator's outputs sorted by name
ascending and free of duplicates. -/
theorem loadDataCmd_spec (c : Client) :
    (∀ e, c.getUser = .error e →
        loadDataCmd c = .errorMsg ("failed to get user: " ++ e)) ∧
    (∀ u e, c.getUser = .ok u → c.getFollowing u = .error e →
        loadDataCmd c = .errorMsg ("failed to get following: " ++ e)) ∧
    (∀ u fg e, c.getUser = .ok u → c.getFollowing u = .ok fg →
        c.getFollowers u = .error e →
        loadDataCmd c = .errorMsg ("failed to get followers: " ++ e)) ∧
    (∀ u fg fr, c.getUser = .ok u → c.getFollowing u = .ok fg →
        c.getFollowers u = .ok fr →
        loadDataCmd c =
          .dataLoaded u (sortItems (GetMutualFollowsData u fg fr).1)
            (sortItems (GetMutualFollowsData u fg fr).2) none ∧
        List.Sorted strLe (sortItems (GetMutualFollowsData u fg fr).1) ∧
        List.Sorted strLe (sortItems (GetMutualFollowsData u fg fr).2) ∧
        (sortItems (GetMutualFollowsData u fg fr).1).Nodup ∧
        (sortItems (GetMutualFollowsData u fg fr).2).Nodup ∧
        (∀ x, x ∈ sortItems (GetMutualFollowsData u fg fr).1 ↔ x ∈ fg ∧ x ∉ fr) ∧
        (∀ x, x ∈ sortItems (GetMutualFollowsData u fg fr).2 ↔ x ∈ fr ∧ x ∉ fg)) := by
  refine ⟨?_, ?_, ?_, ?_⟩
  · intro e he
    simp [loadDataCmd, he]
  · intro u e hu he
    simp [loadDataCmd, hu, he]
  · intro u fg e hu hfg he
    simp [loadDataCmd, hu, hfg, he]
  · intro u fg fr hu hfg hfr
    refine ⟨by simp [loadDataCmd, hu, hfg, hfr], sortItems_sorted _, sortItems_sorted _,
      sortItems_nodup _ (nodup_getMutualFollowsData_fst u fg fr),
      sortItems_nodup _ (nodup_getMutualFollowsData_snd u fg fr),
      fun x => ?_, fun x => ?_⟩
    · rw [mem_sortItems]
      exact mem_getMutualFollowsData_fst u x fg fr
    · rw [mem_sortItems]
      exact mem_getMutualFollowsData_snd u x fg fr

/-- Concrete behaviour of the external client used to witness C6. -/
def demoClient : Client :=
  { getUser := .ok "alice"
    getFollowing := fun _ => .ok ["bob", "carol", "bob"]
    getFollowers := fun _ => .ok ["carol", "dan"]
    follow := fun _ => .ok ()
    unfollow := fun _ => .ok () }

/-- Witness for C6 on the three successful reads of `demoClient`. -/
theorem loadDataCmd_spec_witness :
    loadDataCmd demoClient =
      .dataLoaded "alice"
        (sortItems (GetMutualFollowsData "alice" ["bob", "carol", "bob"] ["carol", "dan"]).1)
        (sortItems (GetMutualFollowsData "alice" ["bob", "carol", "bob"] ["carol", "dan"]).2)
        none :=
  ((loadDataCmd_spec demoClient).2.2.2 "alice" ["bob", "carol", "bob"] ["carol", "dan"]
    rfl rfl rfl).1

/-- Claim C10: `GetUser` never returns an empty username together with
a nil error; it errs exactly when the command fails or the output has
no occurrence of the pattern, and on success the result is the first
captured name, which is nonempty. -/
theorem getUser_spec (r : Except String String) :
    (∀ u, GetUser r = .ok u →
        u ≠ "" ∧ ∃ out, r = .ok out ∧ findCapture out.data = some u.data) ∧
    ((∃ e, GetUser r = .error e) ↔
        (∃ e, r = .error e) ∨ ∃ out, r = .ok out ∧ findCapture out.data = none) := by
  constructor
  · intro u hu
    cases r with
    | error e => simp [GetUser] at hu
    | ok out =>
        cases hc : findCapture out.data with
        | none => simp [GetUser, hc] at hu
        | some cap =>
            have hu2 : String.mk cap = u := by simpa [GetUser, hc] using hu
            subst hu2
            refine ⟨?_, out, rfl, by simpa using hc⟩
            have hne := findCapture_ne_nil out.data cap hc
            simpa [String.ext_iff] using hne
  · constructor
    · rintro ⟨e, he⟩
      cases r with
      | error e2 => exact Or.inl ⟨e2, rfl⟩
      | ok out =>
          cases hc : findCapture out.data with
          | none => exact Or.inr ⟨out, rfl, hc⟩
          | some cap => simp [GetUser, hc] at he
    · rintro (⟨e, he⟩ | ⟨out, hout, hc⟩)
      · subst he
        exact ⟨_, rfl⟩
      · subst hout
        exact ⟨"could not find authenticated user in 'gh auth status' output",
          by simp [GetUser, hc]⟩

/-- Witness for C10 on the success branch at a concrete output. -/
theorem getUser_spec_witness :
    "bob" ≠ "" ∧
    ∃ out, (Except.ok "Logged in to github.com account bob" : Except String String) =
        Except.ok out ∧ findCapture out.data = some "bob".data :=
  (getUser_spec (Except.ok "Logged in to github.com account bob")).1 "bob" (by rfl)

/-- Claim C2 counterexample: in a Loading-state model that holds a
stored error, a successful `dataLoadedMsg` leaves the error in place —
the handler never writes `err = nil`, so the claim's postcondition
`err = nil` for every previously held error value is false. -/
theorem update_dataLoaded_keeps_error_cex :
    ({ initialTuiModel with err := some "boom" } : TuiModel).loading = true ∧
    (Update inertListUpdate { initialTuiModel with err := some "boom" }
        (.dataLoaded "alice" ["x", "y"] ["x", "y"] none)).1.err = some "boom" :=
  ⟨rfl, rfl⟩

/-- Claim C2 (amended): for every Loading-state model, a successful
`dataLoadedMsg` populates the username and both pane lists with
exactly the payload items and clears the loading flag, schedules
nothing, and leaves the stored error unchanged — in particular
`err = nil` afterwards exactly when it was nil before the signal. -/
theorem update_dataLoaded_populates
    (lu : ListState → String → ListState × Option Cmd) (m : TuiModel)
    (username : String) (ofg ofr : List String) (h : m.loading = true) :
    (Update lu m (.dataLoaded username ofg ofr none)).1.loading = false ∧
    (Update lu m (.dataLoaded username ofg ofr none)).1.err = m.err ∧
    (Update lu m (.dataLoaded username ofg ofr none)).1.username = username ∧
    (Update lu m (.dataLoaded username ofg ofr none)).1.onlyFollowing = ofg ∧
    (Update lu m (.dataLoaded username ofg ofr none)).1.onlyFollowers = ofr ∧
    (Update lu m (.dataLoaded username ofg ofr none)).1.followingList.items = ofg ∧
    (Update lu m (.dataLoaded username ofg ofr none)).1.followersList.items = ofr ∧
    (Update lu m (.dataLoaded username ofg ofr none)).2 = none := by
  simp [Update]

/-- Witness for the amended C2 at the initial model and the spec's
scenario payload. -/
theorem update_dataLoaded_populates_witness :
    (Update inertListUpdate initialTuiModel (.dataLoaded "alice" ["x", "y"] ["x", "y"] none)).1.loading = false ∧
    (Update inertListUpdate initialTuiModel (.dataLoaded "alice" ["x", "y"] ["x", "y"] none)).1.err = initialTuiModel.err ∧
    (Update inertListUpdate initialTuiModel (.dataLoaded "alice" ["x", "y"] ["x", "y"] none)).1.username = "alice" ∧
    (Update inertListUpdate initialTuiModel (.dataLoaded "alice" ["x", "y"] ["x", "y"] none)).1.onlyFollowing = ["x", "y"] ∧
    (Update inertListUpdate initialTuiModel (.dataLoaded "alice" ["x", "y"] ["x", "y"] none)).1.onlyFollowers = ["x", "y"] ∧
    (Update inertListUpdate initialTuiModel (.dataLoaded "alice" ["x", "y"] ["x", "y"] none)).1.followingList.items = ["x", "y"] ∧
    (Update inertListUpdate initialTuiModel (.dataLoaded "alice" ["x", "y"] ["x", "y"] none)).1.followersList.items = ["x", "y"] ∧
    (Update inertListUpdate initialTuiModel (.dataLoaded "alice" ["x", "y"] ["x", "y"] none)).2 = none :=
  update_dataLoaded_populates inertListUpdate initialTuiModel "alice" ["x", "y"] ["x", "y"] rfl

/-- Claim C3 counterexample: the initial model is loading with no
error and no bulk action, yet a pane-switch key toggles the active
pane — an outstanding load does not make non-quit keys inert, because
the key handler never tests the loading flag. -/
theorem loading_does_not_gate_keys_cex :
    initialTuiModel.loading = true ∧
    initialTuiModel.err = none ∧
    initialTuiModel.isBulkActionInProgress = false ∧
    initialTuiModel.activePane = followingPane ∧
    (Update inertListUpdate initialTuiModel (.key "tab")).1.activePane = followersPane :=
  ⟨rfl, rfl, rfl, rfl, rfl⟩

/-- Claim C3 (amended): for every model with no stored error in which
a bulk operation is outstanding (busy = true), every key event other
than a quit request is inert — the model is unchanged and no work is
scheduled — because busy gates all other key handling; an outstanding
load (loading = true) does not by itself gate key handling. -/
theorem busy_gates_all_keys
    (lu : ListState → String → ListState × Option Cmd) (m : TuiModel) (k : String)
    (herr : m.err = none) (hb : m.isBulkActionInProgress = true)
    (h1 : k ≠ "q") (h2 : k ≠ "ctrl+c") :
    Update lu m (.key k) = (m, none) := by
  simp [Update, hb, h1, h2]

/-- Witness for the amended C3 at a concrete busy model and the
pane-switch key. -/
theorem busy_gates_all_keys_witness :
    ({ initialTuiModel with isBulkActionInProgress := true } : TuiModel).err = none ∧
    Update inertListUpdate { initialTuiModel with isBulkActionInProgress := true }
        (.key "tab") = ({ initialTuiModel with isBulkActionInProgress := true }, none) :=
  ⟨rfl, busy_gates_all_keys inertListUpdate
    { initialTuiModel with isBulkActionInProgress := true } "tab" rfl rfl
    (by decide) (by decide)⟩

/-- Claim C4 counterexample: with a (newer) nonempty status message
held, the expiry signal still clears it — the `statusMsg` handler
overwrites unconditionally and never compares against the message the
expiry was scheduled for. -/
theorem status_expiry_overwrites_newer_cex :
    ({ initialTuiModel with
        loading := false
        statusMessage := "Bulk follow complete!" } : TuiModel).statusMessage ≠ "" ∧
    (Update inertListUpdate
        { initialTuiModel with
            loading := false
            statusMessage := "Bulk follow complete!" }
        (.statusMsg "")).1.statusMessage = "" :=
  ⟨by decide, rfl⟩

/-- Claim C4 (amended): processing the status-expiry signal (the empty
status message of the 3-second tick) unconditionally clears the status
text and the bulk-busy flag and schedules nothing, even when a
different, newer status message is currently held. -/
theorem update_status_expiry_clears
    (lu : ListState → String → ListState × Option Cmd) (m : TuiModel) :
    Update lu m (.statusMsg "") =
      ({ m with isBulkActionInProgress := false, statusMessage := "" }, none) := by
  simp [Update]

/-- Claim C5 counterexample: after a failed load the state does halt
for keys, but not for every event — a later `statusMsg` (for example
from a previously scheduled single action) still changes the model, so
"any subsequent non-quit event leaves state unchanged" is false. -/
theorem error_state_event_changes_cex :
    (Update inertListUpdate initialTuiModel (.errorMsg "E")).1.loading = false ∧
    (Update inertListUpdate initialTuiModel (.errorMsg "E")).1.err = some "E" ∧
    (Update inertListUpdate (Update inertListUpdate initialTuiModel (.errorMsg "E")).1
        (.statusMsg "Followed x!")).1 ≠
      (Update inertListUpdate initialTuiModel (.errorMsg "E")).1 :=
  ⟨rfl, rfl, by decide⟩

/-- Claim C5 (amended): for every Loading-state model, `errorMsg` with
cause E yields loading = false and err = E, and from that state every
subsequent key event other than a quit request leaves the model
unchanged and schedules nothing (non-key events such as completion,
status or resize messages may still modify the model). -/
theorem update_loadFailed_halts_keys
    (lu : ListState → String → ListState × Option Cmd) (m : TuiModel) (e : String)
    (h : m.loading = true) :
    (Update lu m (.errorMsg e)).1.loading = false ∧
    (Update lu m (.errorMsg e)).1.err = some e ∧
    ∀ k, k ≠ "q" → k ≠ "ctrl+c" →
      Update lu (Update lu m (.errorMsg e)).1 (.key k) =
        ((Update lu m (.errorMsg e)).1, none) := by
  refine ⟨by simp [Update], by simp [Update], ?_⟩
  intro k h1 h2
  by_cases hb : (Update lu m (.errorMsg e)).1.isBulkActionInProgress <;>
    simp [Update, hb, h1, h2]

/-- Witness for the amended C5 at the initial model, cause "E" and the
pane-switch key. -/
theorem update_loadFailed_halts_keys_witness :
    (Update inertListUpdate initialTuiModel (.errorMsg "E")).1.loading = false ∧
    (Update inertListUpdate initialTuiModel (.errorMsg "E")).1.err = some "E" ∧
    Update inertListUpdate (Update inertListUpdate initialTuiModel (.errorMsg "E")).1
        (.key "tab") = ((Update inertListUpdate initialTuiModel (.errorMsg "E")).1, none) :=
  ⟨(update_loadFailed_halts_keys inertListUpdate initialTuiModel "E" rfl).1,
    (update_loadFailed_halts_keys inertListUpdate initialTuiModel "E" rfl).2.1,
    (update_loadFailed_halts_keys inertListUpdate initialTuiModel "E" rfl).2.2 "tab"
      (by decide) (by decide)⟩

/-- Claim C8: while busy = true a pane-switch key leaves the whole
model — in particular the active pane — unchanged and schedules
nothing; every other non-quit key is likewise inert, and only the quit
keys are acted upon. -/
theorem busy_pane_switch_inert
    (lu : ListState → String → ListState × Option Cmd) (m : TuiModel)
    (hb : m.isBulkActionInProgress = true) :
    Update lu m (.key "tab") = (m, none) ∧
    Update lu m (.key "shift+tab") = (m, none) ∧
    (∀ k, k ≠ "q" → k ≠ "ctrl+c" → Update lu m (.key k) = (m, none)) ∧
    Update lu m (.key "q") = ({ m with quitting := true }, some .quit) ∧
    Update lu m (.key "ctrl+c") = ({ m with quitting := true }, some .quit) := by
  have hgen : ∀ k, k ≠ "q" → k ≠ "ctrl+c" → Update lu m (.key k) = (m, none) := by
    intro k h1 h2
    simp [Update, hb, h1, h2]
  exact ⟨hgen "tab" (by decide) (by decide), hgen "shift+tab" (by decide) (by decide),
    hgen, by simp [Update, hb], by simp [Update, hb]⟩

/-- Witness for C8 at a concrete busy model. -/
theorem busy_pane_switch_inert_witness :
    Update inertListUpdate { initialTuiModel with isBulkActionInProgress := true }
        (.key "tab") = ({ initialTuiModel with isBulkActionInProgress := true }, none) :=
  (busy_pane_switch_inert inertListUpdate
    { initialTuiModel with isBulkActionInProgress := true } rfl).1

/-- Claim C9: processing any status message — including the empty one
produced by the 3-second expiry tick — sets the bulk-busy flag to
false, so an expiry scheduled for an earlier message releases the busy
gate even while a bulk action is still in flight. -/
theorem statusMsg_clears_busy
    (lu : ListState → String → ListState × Option Cmd) (m : TuiModel) (s : String) :
    (Update lu m (.statusMsg s)).1.isBulkActionInProgress = false := by
  simp only [Update]
  split <;> rfl
